import Mathlib

/-!
Verification of the ProCaptions backend image-composition service
(`src/services/composition.py`), shallow-embedded in Lean.

Modelling conventions:
* Python `//` on nonnegative integers is `Nat` division, and on `Int` with a
  positive divisor it is Lean's `Int` division (which rounds toward negative
  infinity, exactly like Python floor division for positive divisors).
* Python `int(x)` on a `float` truncates toward zero; it is modelled by
  `pyInt` on exact rationals.  The float constant `0.375` is exactly `3/8`
  in binary floating point, so rational arithmetic is exact there; the other
  float computations modelled here only feed sign-robust comparisons and
  floors whose verified properties are insensitive to last-ulp error.
* A Python function that can raise is modelled with `Option`/`Except`,
  `none`/`.error` standing for the raised exception.
* Python string operations are modelled on the character list (`String.data`)
  so that all definitions evaluate inside the kernel.
-/

/-- An RGBA pixel: red, green, blue, alpha channels (0..255 each). -/
abbrev RGBA := ℕ × ℕ × ℕ × ℕ

/-- Python `int()` applied to an exact rational: truncation toward zero. -/
def pyInt (q : ℚ) : ℤ :=
  if 0 ≤ q then ⌊q⌋ else ⌈q⌉

/-- Constant `vertical_adjustment_factor = 0.375` in
`CompositionService.add_text` (composition.py line 692). -/
def verticalAdjustmentFactor : ℚ := 375 / 1000

/-- The draw-origin computation of `CompositionService.add_text`
(composition.py lines 688-694):
`adjusted_pos_x = pos_x - text_width // 2`;
`vertical_adjustment = int(text_height * 0.375)`;
`adjusted_pos_y = pos_y - text_height // 2 - vertical_adjustment`.
`text_width`/`text_height` come from a `textbbox` call and are nonnegative,
so `int()` truncation coincides with the floor. -/
def addTextDrawOrigin (posX posY : ℤ) (textWidth textHeight : ℕ) : ℤ × ℤ :=
  let adjustedPosX : ℤ := posX - (textWidth : ℤ) / 2
  let verticalAdjustment : ℤ := ⌊(textHeight : ℚ) * verticalAdjustmentFactor⌋
  let adjustedPosY : ℤ := posY - (textHeight : ℤ) / 2 - verticalAdjustment
  (adjustedPosX, adjustedPosY)

/-- Constant `vertical_adjustment_factor = 0.10` in
`CompositionService.add_multiple_text_layers` (composition.py line 1053). -/
def multiLayerAdjustmentFactor : ℚ := 10 / 100

/-- The per-layer draw-origin computation of
`CompositionService.add_multiple_text_layers` (composition.py lines 1049-1055).
Identical in shape to `addTextDrawOrigin` but with factor `0.10`. -/
def multiLayerDrawOrigin (posX posY : ℤ) (textWidth textHeight : ℕ) : ℤ × ℤ :=
  let adjustedPosX : ℤ := posX - (textWidth : ℤ) / 2
  let verticalAdjustment : ℤ := ⌊(textHeight : ℚ) * multiLayerAdjustmentFactor⌋
  let adjustedPosY : ℤ := posY - (textHeight : ℤ) / 2 - verticalAdjustment
  (adjustedPosX, adjustedPosY)

/-- The input validation / normalization prefix of
`CompositionService.add_dramatic_text` (composition.py lines 759-789):
* empty `background_path` raises `ValueError` (modelled as `.error`);
* empty (falsy) `text` is replaced by `"SAMPLE TEXT"`;
* a period is appended when `with_period` is set and absent;
* uppercase conversion when requested;
* a malformed / missing `position` dict collapses to `{"x":100,"y":100}`,
  and missing or non-coercible `x`/`y` entries each default to `100`.
The `position` argument models the dict: `none` for a value that is not a
dict at all; otherwise a pair of per-key `Option ℤ` entries where `none`
stands for a missing or non-int-coercible value. -/
def addDramaticTextPrep (backgroundPath text : String)
    (position : Option (Option ℤ × Option ℤ))
    (withPeriod toUppercase : Bool) : Except String (String × ℤ × ℤ) :=
  if backgroundPath = "" then
    Except.error "Background path is required"
  else
    let text1 := if text = "" then "SAMPLE TEXT" else text
    let text2 :=
      if withPeriod && !(text1.data.getLast? == some '.') then
        String.mk (text1.data ++ ['.'])
      else text1
    let text3 := if toUppercase then String.mk (text2.data.map Char.toUpper) else text2
    let xy : ℤ × ℤ :=
      match position with
      | none => (100, 100)
      | some (ox, oy) => (ox.getD 100, oy.getD 100)
    Except.ok (text3, xy)

/-- Hex digit recognizer matching what Python's `int(s, 16)` accepts on the
plain digit strings exercised here. -/
def isHexDig (c : Char) : Bool :=
  c.isDigit || ('a' ≤ c && c ≤ 'f') || ('A' ≤ c && c ≤ 'F')

/-- Value of one hex digit. -/
def hexDigVal (c : Char) : ℕ :=
  if c.isDigit then c.toNat - 48
  else if 'a' ≤ c then c.toNat - 87
  else c.toNat - 55

/-- Python `int(s, 16)` on a slice of the color string: succeeds iff the slice
is a nonempty run of hex digits, otherwise Python raises `ValueError`
(`none`). -/
def parseHexChars (cs : List Char) : Option ℕ :=
  if cs ≠ [] ∧ cs.all isHexDig then
    some (cs.foldl (fun n c => 16 * n + hexDigVal c) 0)
  else
    none

/-- Model of `CompositionService._hex_to_rgba` (composition.py lines 555-589)
on the color string's characters.  `startswith('#')` is the head test;
`hex_color.lstrip('#')` strips every leading `#`.  The length dispatch is the
source's `if/elif` chain; a parse failure inside a taken branch propagates
(Python raises `ValueError`), modelled as `none`. -/
def hexToRgbaChars (cs : List Char) : Option RGBA :=
  if cs.head? = some '#' then
    if (cs.dropWhile (fun c => c = '#')).length = 8 then do
      let body := cs.dropWhile (fun c => c = '#')
      let r ← parseHexChars (body.take 2)
      let g ← parseHexChars ((body.drop 2).take 2)
      let b ← parseHexChars ((body.drop 4).take 2)
      let a ← parseHexChars ((body.drop 6).take 2)
      return (r, g, b, a)
    else if (cs.dropWhile (fun c => c = '#')).length = 6 then do
      let body := cs.dropWhile (fun c => c = '#')
      let r ← parseHexChars (body.take 2)
      let g ← parseHexChars ((body.drop 2).take 2)
      let b ← parseHexChars ((body.drop 4).take 2)
      return (r, g, b, 255)
    else if (cs.dropWhile (fun c => c = '#')).length = 4 then do
      let body := cs.dropWhile (fun c => c = '#')
      let r ← parseHexChars (body.take 1)
      let g ← parseHexChars ((body.drop 1).take 1)
      let b ← parseHexChars ((body.drop 2).take 1)
      let a ← parseHexChars ((body.drop 3).take 1)
      return (r * 17, g * 17, b * 17, a * 17)
    else if (cs.dropWhile (fun c => c = '#')).length = 3 then do
      let body := cs.dropWhile (fun c => c = '#')
      let r ← parseHexChars (body.take 1)
      let g ← parseHexChars ((body.drop 1).take 1)
      let b ← parseHexChars ((body.drop 2).take 1)
      return (r * 17, g * 17, b * 17, 255)
    else
      some (255, 255, 255, 255)
  else
    some (255, 255, 255, 255)

/-- Model of `CompositionService._hex_to_rgba` on a string. -/
def hexToRgba (hexColor : String) : Option RGBA :=
  hexToRgbaChars hexColor.data

/-- One observable drawing operation performed by
`CompositionService._apply_text_effects` (composition.py lines 109-553).
Operations on the main canvas and on the per-effect scratch layers are kept
apart.  `pasteLayerTypeError` records the scratch-layer composite attempt
`draw.im.paste(Image.fromarray(...), (0, 0), Image.fromarray(...))`
(composition.py lines 194 and 243): `draw.im` is Pillow's C-level
`ImagingCore`, whose `paste` requires a 4-tuple box and core-typed
source/mask, so the call raises `TypeError` on every input and is swallowed
by the enclosing branch's `except`; the scratch layer never reaches the
canvas.  `ringPoint` is used only by the spec-side model of the claimed
ring-based glow (it never occurs in the code's trace). -/
inductive DrawOp where
  | text (pos : ℤ × ℤ) (color : String)
  | layerText (pos : ℤ × ℤ) (color : String)
  | gaussianBlur (radius : ℕ)
  | scaleAlpha (opacity : ℚ)
  | pasteLayerTypeError
  | depthLayer (i : ℕ) (color : String)
  | gradientMaskPaste
  | gradientDirect (pos : ℤ × ℤ)
  | bgGradientPaste
  | ringPoint (ring pt : ℕ) (dist opacity : ℚ)
  deriving DecidableEq

/-- Whether an operation puts pixels on the main canvas.  `draw.text` calls
on the canvas do (`text`, `depthLayer`, `gradientDirect`); scratch-layer
work does not; the `ImagingCore.paste` composites (`pasteLayerTypeError`,
`gradientMaskPaste` at line 396, `bgGradientPaste` at line 533) never do,
since that call always raises `TypeError` and each branch's `except` swallows
it. -/
def DrawOp.onCanvas : DrawOp → Bool
  | .text _ _ => true
  | .layerText _ _ => false
  | .gaussianBlur _ => false
  | .scaleAlpha _ => false
  | .pasteLayerTypeError => false
  | .depthLayer _ _ => true
  | .gradientMaskPaste => false
  | .gradientDirect _ => true
  | .bgGradientPaste => false
  | .ringPoint _ _ _ _ => true

/-- Shadow effect parameters; the field defaults are the source's
`effect_presets["shadow"]` values, returned by the `dict.get` calls when a
key is absent (composition.py lines 33-38, 200-218). -/
structure ShadowSpec where
  offset : ℤ × ℤ := (5, 5)
  color : String := "#000000"
  opacity : ℚ := 5 / 10
  blur : ℕ := 3
  deriving DecidableEq

/-- Outline effect parameters (`effect_presets["outline"]`; the preset's
`opacity` key is never read by the outline branch and is omitted). -/
structure OutlineSpec where
  width : ℕ := 2
  color : String := "#000000"
  deriving DecidableEq

/-- Glow effect parameters (`effect_presets["glow"]`). -/
structure GlowSpec where
  color : String := "#FFFFFF"
  radius : ℕ := 10
  opacity : ℚ := 7 / 10
  deriving DecidableEq

/-- Parameters of the 3d-depth effect (`effect_presets["3d_depth"]`).  The
`angle` only feeds the trigonometric pixel offsets, which the trace does not
record (each layer op records its index and color instead). -/
structure Depth3DSpec where
  layers : ℕ := 10
  distance : ℤ := 2
  colors : List String := ["#333333", "#666666", "#999999"]
  deriving DecidableEq

/-- The `effects` dict handed to `_apply_text_effects`: each key is optional;
the two gradient branches are traced abstractly, so only their presence (and
`use_mask` for the text gradient) matters. -/
structure Effects where
  shadow : Option ShadowSpec := none
  outline : Option OutlineSpec := none
  glow : Option GlowSpec := none
  depth3d : Option Depth3DSpec := none
  textGradient : Bool := false
  textGradientUseMask : Bool := true
  backgroundGradient : Bool := false
  deriving DecidableEq

/-- Layer color selection of the 3d-depth branch (composition.py lines
156-161): `colors[min(int(i * len(colors) / layers), len(colors) - 1)]`,
falling back to `"#666666"` for an empty list. -/
def depth3dColor (d : Depth3DSpec) (i : ℕ) : String :=
  if d.colors ≠ [] then
    d.colors.getD (min (i * d.colors.length / d.layers) (d.colors.length - 1)) "#666666"
  else
    "#666666"

/-- Trace of the 3d-depth branch: `for i in range(layers, 0, -1)` draws layer
`i` back to front (composition.py lines 152-169). -/
def depthOps (d : Depth3DSpec) : List DrawOp :=
  ((List.range d.layers).reverse.map fun i0 => DrawOp.depthLayer (i0 + 1) (depth3dColor d (i0 + 1)))

/-- Trace of the glow branch (composition.py lines 172-197): draw the text on
a fresh transparent layer in the glow color, Gaussian-blur that layer with
the glow radius, scale the layer's alpha channel by the glow opacity, then
attempt `draw.im.paste(..., (0, 0), ...)` — which always raises `TypeError`
(2-tuple box and PIL-`Image` mask handed to `ImagingCore.paste`), caught by
the branch's `except` at lines 195-197, so the glow layer is discarded and
never composited onto the canvas. -/
def glowOps (pos : ℤ × ℤ) (g : GlowSpec) : List DrawOp :=
  [DrawOp.layerText pos g.color, DrawOp.gaussianBlur g.radius,
   DrawOp.scaleAlpha g.opacity, DrawOp.pasteLayerTypeError]

/-- Trace of the shadow branch (composition.py lines 200-243): offset text on
a fresh layer, blur only when `blur > 0`, scale alpha, then the same
always-failing `draw.im.paste` composite at line 243, swallowed by the
branch's `except` at lines 244-246 — the shadow layer never reaches the
canvas either. -/
def shadowOps (pos : ℤ × ℤ) (s : ShadowSpec) : List DrawOp :=
  [DrawOp.layerText (pos.1 + s.offset.1, pos.2 + s.offset.2) s.color]
    ++ (if s.blur > 0 then [DrawOp.gaussianBlur s.blur] else [])
    ++ [DrawOp.scaleAlpha s.opacity, DrawOp.pasteLayerTypeError]

/-- Offsets enumerated by Python's `range(-w, w+1)`. -/
def offsetRange (w : ℕ) : List ℤ :=
  (List.range (2 * w + 1)).map fun (i : ℕ) => (i : ℤ) - (w : ℤ)

/-- Offsets visited by the outline double loop
`for dx in range(-width, width+1): for dy in range(-width, width+1)` with the
`(0, 0)` center skipped (composition.py lines 260-268), in loop order. -/
def outlineOffsets (w : ℕ) : List (ℤ × ℤ) :=
  (offsetRange w).flatMap fun dx =>
    (offsetRange w).flatMap fun dy =>
      if dx = 0 ∧ dy = 0 then [] else [(dx, dy)]

/-- Trace of the outline branch: one text draw per visited offset. -/
def outlineOps (pos : ℤ × ℤ) (o : OutlineSpec) : List DrawOp :=
  (outlineOffsets o.width).map fun d => DrawOp.text (pos.1 + d.1, pos.2 + d.2) o.color

/-- Trace of `CompositionService._apply_text_effects` (composition.py lines
109-553) on the success path: no effects draws the plain text once;
otherwise the 3d-depth, glow, shadow and outline branches run in that order,
and finally either a gradient branch or the main text on top
(`if text_gradient: ... elif background_gradient: ... else: draw main text`).
The glow and shadow branches end with an `ImagingCore.paste` composite that
always raises `TypeError` and is swallowed by the branch's own `except`
(recorded as `pasteLayerTypeError`); every `draw.text` call the trace records
succeeds. -/
def applyTextEffects (pos : ℤ × ℤ) (color : String) (effects : Option Effects) :
    List DrawOp :=
  match effects with
  | none => [DrawOp.text pos color]
  | some e =>
    (match e.depth3d with | some d => depthOps d | none => [])
    ++ (match e.glow with | some g => glowOps pos g | none => [])
    ++ (match e.shadow with | some s => shadowOps pos s | none => [])
    ++ (match e.outline with | some o => outlineOps pos o | none => [])
    ++ (if e.textGradient then
          (if e.textGradientUseMask then [DrawOp.gradientMaskPaste]
           else [DrawOp.gradientDirect pos])
        else if e.backgroundGradient then
          [DrawOp.bgGradientPaste, DrawOp.text pos color]
        else
          [DrawOp.text pos color])

/-- Modelled from the spec: the glow renderer that claim C3 describes —
`steps = min(radius, 20)` concentric rings, ring `i` (1-indexed) drawn at 12
points around a circle of radius `radius*i/steps` with opacity
`baseOpacity*(1 - i/steps)`, main text last.  This is the claim-side
rendering, to be compared with the code's `applyTextEffects` trace. -/
def glowRingOpsClaim (pos : ℤ × ℤ) (mainColor : String) (radius : ℕ)
    (baseOpacity : ℚ) : List DrawOp :=
  let steps := min radius 20
  ((List.range steps).flatMap fun i0 =>
    (List.range 12).map fun k =>
      DrawOp.ringPoint (i0 + 1) k ((radius : ℚ) * (i0 + 1) / steps)
        (baseOpacity * (1 - ((i0 : ℚ) + 1) / steps)))
  ++ [DrawOp.text pos mainColor]

/-- An in-memory RGBA raster: explicit dimensions and a pixel function. -/
structure SizedImg where
  width : ℕ
  height : ℕ
  px : ℕ → ℕ → RGBA

/-- Resampling to a target size (`Image.resize(size, Image.LANCZOS)`).
The Lanczos kernel determines the resampled pixel values; the verified
claims depend only on the dimensions, so the pixel function is modelled as a
coordinate rescale. -/
def resizeImg (img : SizedImg) (w h : ℕ) : SizedImg :=
  { width := w, height := h,
    px := fun x y => img.px (x * img.width / w) (y * img.height / h) }

/-- One channel blended by alpha `a` (over 255): standard rounded lerp. -/
def blendChan (f b a : ℕ) : ℕ :=
  (f * a + b * (255 - a) + 127) / 255

/-- PIL `base.paste(fg, (0, 0), fg)`: inside the pasted region the
foreground is blended over the base using the foreground's own alpha as the
mask; the canvas keeps the base's dimensions. -/
def alphaPasteAtOrigin (base fg : SizedImg) : SizedImg :=
  { width := base.width, height := base.height,
    px := fun x y =>
      if x < fg.width ∧ y < fg.height then
        let f := fg.px x y
        let b := base.px x y
        let a := f.2.2.2
        (blendChan f.1 b.1 a, blendChan f.2.1 b.2.1 a,
         blendChan f.2.2.1 b.2.2.1 a, blendChan f.2.2.2 b.2.2.2 a)
      else
        base.px x y }

/-- The foreground actually blended by `compose_final_image` (composition.py
lines 847-850): resized to the background's size exactly when the sizes
differ. -/
def composedForeground (bg fg : SizedImg) : SizedImg :=
  if (fg.width, fg.height) ≠ (bg.width, bg.height) then
    resizeImg fg bg.width bg.height
  else
    fg

/-- Model of `CompositionService.compose_final_image` (composition.py lines
822-873) after both images are loaded: the `blend_mode` and `blend_opacity`
parameters are accepted (with the source's defaults) but never read; the
result is the background copy with the (possibly resized) foreground pasted
on top at `(0, 0)` using its own alpha mask. -/
def composeFinalImage (bg fg : SizedImg)
    (blendMode : String) (blendOpacity : ℚ) : SizedImg :=
  alphaPasteAtOrigin bg (composedForeground bg fg)

/-- Table of `CompositionService._get_social_media_dimensions` (composition.py
lines 935-947): dictionary lookup with default `(1080, 1080)`. -/
def socialMediaDimensions (templateName : String) : ℕ × ℕ :=
  if templateName = "instagram_post" then (1080, 1080)
  else if templateName = "instagram_story" then (1080, 1920)
  else if templateName = "facebook_post" then (1200, 630)
  else if templateName = "twitter_post" then (1600, 900)
  else if templateName = "linkedin_post" then (1200, 627)
  else if templateName = "youtube_thumbnail" then (1280, 720)
  else if templateName = "tiktok_video" then (1080, 1920)
  else (1080, 1080)

/-- The keys of the template table. -/
def templateNames : List String :=
  ["instagram_post", "instagram_story", "facebook_post", "twitter_post",
   "linkedin_post", "youtube_thumbnail", "tiktok_video"]

/-- Geometry computed by `CompositionService.create_template`: canvas size,
the resized foreground's size, and the paste position. -/
structure TemplateLayout where
  canvasW : ℕ
  canvasH : ℕ
  newW : ℤ
  newH : ℤ
  posX : ℤ
  posY : ℤ

/-- Scaling and centering arithmetic of `CompositionService.create_template`
(composition.py lines 969-997) for given template dimensions `(w, h)`:
`padding_px = min(width, height) * padding_percent // 100`;
`avail = dimension - 2 * padding_px`; if `avail_width / avail_height`
exceeds the foreground aspect `fg_width / fg_height`, the scale is
constrained by height (`new_height = avail_height`,
`new_width = int(new_height * fg_aspect)`), else by width; the resized
foreground is pasted at `((width - new_width) // 2, (height - new_height) // 2)`.
Python float divisions are modelled by exact rationals. -/
def templateLayoutCore (fgW fgH w h paddingPercent : ℕ) : TemplateLayout :=
  let fgAspect : ℚ := (fgW : ℚ) / (fgH : ℚ)
  let paddingPx : ℕ := min w h * paddingPercent / 100
  let availWidth : ℤ := (w : ℤ) - 2 * (paddingPx : ℤ)
  let availHeight : ℤ := (h : ℤ) - 2 * (paddingPx : ℤ)
  if (availWidth : ℚ) / (availHeight : ℚ) > fgAspect then
    let newHeight : ℤ := availHeight
    let newWidth : ℤ := pyInt ((newHeight : ℚ) * fgAspect)
    { canvasW := w, canvasH := h, newW := newWidth, newH := newHeight,
      posX := ((w : ℤ) - newWidth) / 2, posY := ((h : ℤ) - newHeight) / 2 }
  else
    let newWidth : ℤ := availWidth
    let newHeight : ℤ := pyInt ((newWidth : ℚ) / fgAspect)
    { canvasW := w, canvasH := h, newW := newWidth, newH := newHeight,
      posX := ((w : ℤ) - newWidth) / 2, posY := ((h : ℤ) - newHeight) / 2 }

/-- Geometry of `create_template`: template-table lookup, then the scaling
and centering arithmetic. -/
def createTemplateLayout (fgW fgH : ℕ) (templateName : String)
    (paddingPercent : ℕ) : TemplateLayout :=
  templateLayoutCore fgW fgH (socialMediaDimensions templateName).1
    (socialMediaDimensions templateName).2 paddingPercent

/-- Sum of `f` over `0, ..., n-1` in ℚ. -/
def sumRange (n : ℕ) (f : ℕ → ℚ) : ℚ :=
  ((List.range n).map f).sum

/-- Sum of the alpha channel over the candidate region
`rows × cols` starting at `(x, y)`. -/
def regionAlphaSum (img : SizedImg) (x y cols rows : ℕ) : ℚ :=
  sumRange rows fun j => sumRange cols fun i => ((img.px (x + i) (y + j)).2.2.2 : ℚ)

/-- Sum of the three color channels over the candidate region (used for the
brightness score of images without an alpha channel). -/
def regionRGBSum (img : SizedImg) (x y cols rows : ℕ) : ℚ :=
  sumRange rows fun j => sumRange cols fun i =>
    ((img.px (x + i) (y + j)).1 : ℚ) + ((img.px (x + i) (y + j)).2.1 : ℚ)
      + ((img.px (x + i) (y + j)).2.2.1 : ℚ)

/-- One candidate of `_suggest_text_positions`: the dict
`{"x": x_pos, "y": y_pos, "score": score}`. -/
structure Candidate where
  x : ℤ
  y : ℤ
  score : ℚ
  deriving DecidableEq

/-- Clamp of a candidate coordinate 10px inside the image bounds:
`max(10, min(dim - textSize - 10, pos))` (composition.py lines 618-619). -/
def clampPos (dim t : ℕ) (q : ℤ) : ℤ :=
  max 10 (min ((dim : ℤ) - (t : ℤ) - 10) q)

/-- One candidate coordinate of the 3×3 grid:
`int(dim * (idx + 0.5) / 3 - textSize / 2)`, clamped
(composition.py lines 614-619). -/
def cellAnchor (dim t idx : ℕ) : ℤ :=
  clampPos dim t (pyInt ((dim : ℚ) * ((idx : ℚ) + 1 / 2) / 3 - (t : ℚ) / 2))

/-- One grid cell of `CompositionService._suggest_text_positions`
(composition.py lines 611-637): the candidate box of the text size centered
at the cell's center, clamped 10px inside the image bounds; with an alpha
channel the cell becomes a candidate only when its mean alpha is below 128
(scored `255 - meanAlpha`), otherwise it is scored by inverse mean
brightness unconditionally.  An empty region has mean 0 (`np.mean` guarded
by `region.size > 0`). -/
def candidateCell (img : SizedImg) (hasAlpha : Bool) (tw th xIdx yIdx : ℕ) :
    List Candidate :=
  let xPos : ℤ := cellAnchor img.width tw xIdx
  let yPos : ℤ := cellAnchor img.height th yIdx
  let xN := xPos.toNat
  let yN := yPos.toNat
  let cols := min (xN + tw) img.width - xN
  let rows := min (yN + th) img.height - yN
  if hasAlpha then
    let avgAlpha : ℚ :=
      if 0 < rows * cols then regionAlphaSum img xN yN cols rows / (rows * cols : ℚ)
      else 0
    if avgAlpha < 128 then [⟨xPos, yPos, 255 - avgAlpha⟩] else []
  else
    let avgBrightness : ℚ :=
      if 0 < rows * cols then regionRGBSum img xN yN cols rows / ((rows * cols : ℚ) * 3)
      else 0
    [⟨xPos, yPos, 255 - avgBrightness⟩]

/-- All nine grid cells of `_suggest_text_positions`, visited in source loop
order (`for y_idx in range(3): for x_idx in range(3)`), keeping only the
candidates the source appends. -/
def candidateCells (img : SizedImg) (hasAlpha : Bool) (tw th : ℕ) :
    List Candidate :=
  (List.range 3).flatMap fun yIdx =>
    (List.range 3).flatMap fun xIdx =>
      candidateCell img hasAlpha tw th xIdx yIdx

/-- Comparison used to model Python's stable
`positions.sort(key=lambda p: p["score"], reverse=True)`. -/
def candLE (a b : Candidate) : Bool :=
  decide (b.score ≤ a.score)

/-- Model of `CompositionService._suggest_text_positions` (composition.py
lines 591-643): collect the grid candidates, sort them by score descending
(stable, like CPython's sort), return the top 3. -/
def suggestTextPositions (img : SizedImg) (hasAlpha : Bool) (tw th : ℕ) :
    List Candidate :=
  ((candidateCells img hasAlpha tw th).mergeSort candLE).take 3

/-- A fully opaque 60×60 background (alpha 255 everywhere). -/
def opaqueImg : SizedImg :=
  { width := 60, height := 60, px := fun _ _ => (0, 0, 0, 255) }

/-- A 60×60 background transparent on its left half. -/
def mixedImg : SizedImg :=
  { width := 60, height := 60, px := fun x _ => (0, 0, 0, if x < 30 then 0 else 255) }

/-! ## Theorems -/

/-- Helper: the floor of `h * (375/1000)` over ℚ is natural division. -/
theorem floor_mul_vaf (h : ℕ) :
    ⌊(h : ℚ) * verticalAdjustmentFactor⌋ = ((h * 375 / 1000 : ℕ) : ℤ) := by
  have hq : (h : ℚ) * verticalAdjustmentFactor
      = ((h * 375 : ℕ) : ℤ) / ((1000 : ℕ) : ℚ) := by
    unfold verticalAdjustmentFactor
    push_cast
    ring
  rw [hq, Rat.floor_intCast_div_natCast]
  exact (Int.ofNat_ediv _ _).symm

/-- Helper: the floor of `h * (10/100)` over ℚ is natural division. -/
theorem floor_mul_mlaf (h : ℕ) :
    ⌊(h : ℚ) * multiLayerAdjustmentFactor⌋ = ((h * 10 / 100 : ℕ) : ℤ) := by
  have hq : (h : ℚ) * multiLayerAdjustmentFactor
      = ((h * 10 : ℕ) : ℤ) / ((100 : ℕ) : ℚ) := by
    unfold multiLayerAdjustmentFactor
    push_cast
    ring
  rw [hq, Rat.floor_intCast_div_natCast]
  exact (Int.ofNat_ediv _ _).symm

/-- Claim C1: `add_text` computes the top-left draw origin as
`drawX = x - w//2` and `drawY = y - h//2 - floor(h*0.375)`; in particular
anchor `{x:100,y:100}` with text size `{w:200,h:50}` yields `{x:0,y:57}`,
and the result is the same on every call with the same inputs
(the computation is a pure function of its inputs). -/
theorem C1_position_resolution :
    (∀ (x y : ℤ) (w h : ℕ),
      addTextDrawOrigin x y w h
        = (x - (w : ℤ) / 2, y - (h : ℤ) / 2 - ((h * 375 / 1000 : ℕ) : ℤ)))
    ∧ addTextDrawOrigin 100 100 200 50 = (0, 57)
    ∧ (∀ (x y : ℤ) (w h : ℕ),
      addTextDrawOrigin x y w h = addTextDrawOrigin x y w h) := by
  refine ⟨?_, ?_, fun _ _ _ _ => rfl⟩
  · intro x y w h
    unfold addTextDrawOrigin
    rw [floor_mul_vaf]
  · unfold addTextDrawOrigin verticalAdjustmentFactor
    norm_num

/-- Claim C2 counterexample: in `add_multiple_text_layers` the layer at anchor
`{x:100,y:100}` with text size `{w:200,h:50}` resolves to draw origin
`(0, 70)`, not the `(0, 57)` that the claimed `0.375` factor would give. -/
theorem C2_counterexample :
    multiLayerDrawOrigin 100 100 200 50 = (0, 70)
    ∧ multiLayerDrawOrigin 100 100 200 50
        ≠ (100 - (200 : ℤ) / 2, 100 - (50 : ℤ) / 2 - 18) := by
  constructor
  · unfold multiLayerDrawOrigin multiLayerAdjustmentFactor
    norm_num
  · unfold multiLayerDrawOrigin multiLayerAdjustmentFactor
    norm_num

/-- Claim C2 (amended): each layer in `add_multiple_text_layers` resolves its
position with the same centering formula as the single-text path but with
vertical-adjustment factor `0.10`, i.e.
`drawY = anchor.y - h//2 - floor(h*0.10)`; for anchor `{100,100}` and size
`{200,50}` this is `(0, 70)`. -/
theorem C2_layer_position_resolution :
    (∀ (x y : ℤ) (w h : ℕ),
      multiLayerDrawOrigin x y w h
        = (x - (w : ℤ) / 2, y - (h : ℤ) / 2 - ((h * 10 / 100 : ℕ) : ℤ)))
    ∧ multiLayerDrawOrigin 100 100 200 50 = (0, 70) := by
  constructor
  · intro x y w h
    unfold multiLayerDrawOrigin
    rw [floor_mul_mlaf]
  · unfold multiLayerDrawOrigin multiLayerAdjustmentFactor
    norm_num

/-- Claim C4 counterexample: calling `add_dramatic_text` with an empty `text`
succeeds — the text is normalized to the default `"SAMPLE TEXT"` (then a
period is appended under the default `with_period=True`), contradicting the
claim that an empty text is a hard failure that is never defaulted. -/
theorem C4_counterexample :
    addDramaticTextPrep "bg.png" "" (some (some 100, some 100)) true false
      = Except.ok ("SAMPLE TEXT.", (100, 100)) := by
  rfl

/-- Claim C4 (amended): in `add_dramatic_text`, a missing `background_path` is
the hard failure surfaced to the caller; an empty `text` is normalized to the
default `"SAMPLE TEXT"` (with period appended when `with_period`), and a
malformed or missing `position` is normalized to the safe default
`{x:100,y:100}` instead of failing the request. -/
theorem C4_validation (bg : String) (hbg : bg ≠ "")
    (wp tu : Bool) (pos : Option (Option ℤ × Option ℤ)) :
    addDramaticTextPrep "" "hello" pos wp tu
      = Except.error "Background path is required"
    ∧ addDramaticTextPrep bg "" none true false
      = Except.ok ("SAMPLE TEXT.", (100, 100))
    ∧ (∀ t : String,
        addDramaticTextPrep bg t none wp tu
          = addDramaticTextPrep bg t (some (none, none)) wp tu)
    ∧ (∀ t : String, (addDramaticTextPrep bg t pos wp tu).isOk = true) := by
  refine ⟨rfl, ?_, ?_, ?_⟩
  · unfold addDramaticTextPrep
    rw [if_neg hbg]
    rfl
  · intro t
    unfold addDramaticTextPrep
    rw [if_neg hbg, if_neg hbg]
    rfl
  · intro t
    unfold addDramaticTextPrep
    rw [if_neg hbg]
    rfl

/-- Witness for `C4_validation` at `bg = "bg.png"`. -/
theorem C4_validation_witness :
    addDramaticTextPrep "" "hello" none true false
      = Except.error "Background path is required"
    ∧ addDramaticTextPrep "bg.png" "" none true false
      = Except.ok ("SAMPLE TEXT.", (100, 100)) := by
  have h := C4_validation "bg.png" (by decide) true false none
  exact ⟨h.1, h.2.1⟩

/-- Claim C5 counterexample: `_hex_to_rgba "#GGHHII"` raises `ValueError`
(`int("GG", 16)` fails) instead of returning opaque white, contradicting
"returns (255,255,255,255) and never raises" for malformed inputs. -/
theorem C5_counterexample :
    hexToRgba "#GGHHII" = none
    ∧ hexToRgba "#GGHHII" ≠ some (255, 255, 255, 255) := by
  constructor
  · decide
  · decide

/-- Claim C5 (amended): `_hex_to_rgba` returns opaque white
`(255,255,255,255)` for any input that does not start with `#`, and for any
`#`-prefixed input whose body (after stripping leading `#`) has a length other
than 3, 4, 6 or 8; well-formed hex colors parse to their RGBA channels with
alpha 255 when no alpha digits are present; but a `#`-prefixed input of a
valid length containing a non-hex character raises `ValueError` rather than
defaulting to white. -/
theorem C5_hex_color_parsing :
    (∀ s : String, s.data.head? ≠ some '#' →
      hexToRgba s = some (255, 255, 255, 255))
    ∧ (∀ s : String, s.data.head? = some '#' →
        (s.data.dropWhile (fun c => c = '#')).length ∉ ([3, 4, 6, 8] : List ℕ) →
        hexToRgba s = some (255, 255, 255, 255))
    ∧ hexToRgba "#ff8000" = some (255, 128, 0, 255)
    ∧ hexToRgba "#ff800080" = some (255, 128, 0, 128)
    ∧ hexToRgba "#f80" = some (255, 136, 0, 255)
    ∧ hexToRgba "#f808" = some (255, 136, 0, 136)
    ∧ hexToRgba "#GGHHII" = none := by
  refine ⟨?_, ?_, by decide, by decide, by decide, by decide, by decide⟩
  · intro s hs
    unfold hexToRgba hexToRgbaChars
    rw [if_neg hs]
  · intro s hs hlen
    simp only [List.mem_cons, List.not_mem_nil, or_false] at hlen
    push_neg at hlen
    obtain ⟨h3, h4, h6, h8⟩ := hlen
    unfold hexToRgba hexToRgbaChars
    rw [if_pos hs, if_neg h8, if_neg h6, if_neg h4, if_neg h3]

/-- Witness for `C5_hex_color_parsing`: instantiating its universally
quantified defaulting clauses at concrete malformed inputs. -/
theorem C5_hex_color_parsing_witness :
    hexToRgba "red" = some (255, 255, 255, 255)
    ∧ hexToRgba "#ff800" = some (255, 255, 255, 255) := by
  refine ⟨C5_hex_color_parsing.1 "red" (by decide), ?_⟩
  exact C5_hex_color_parsing.2.1 "#ff800" (by decide) (by decide)

/-- Claim C3 counterexample: for `Glow{radius=10, opacity=0.7}` the code's
trace is the 5-step blur pipeline, not the 130-operation ring rendering the
claim describes; the two traces differ. -/
theorem C3_counterexample :
    applyTextEffects (0, 0) "#FFFFFF" (some { glow := some {} })
      ≠ glowRingOpsClaim (0, 0) "#FFFFFF" 10 (7 / 10) := by
  decide

/-- Claim C3 (amended): the glow effect draws no concentric rings and in
fact never reaches the canvas: the text is drawn once on a separate
transparent layer in the glow color, that layer is Gaussian-blurred with the
glow radius and its alpha channel is scaled by the glow opacity, but the
composite `draw.im.paste(..., (0, 0), ...)` raises `TypeError` (2-tuple box
and PIL-`Image` mask handed to `ImagingCore.paste`), which the branch's
`except` swallows — so the glow layer is discarded and the only operation
drawn on the canvas is the main text, drawn last. -/
theorem C3_glow_rendering (pos : ℤ × ℤ) (col : String) (g : GlowSpec) :
    applyTextEffects pos col (some { glow := some g })
      = [DrawOp.layerText pos g.color, DrawOp.gaussianBlur g.radius,
         DrawOp.scaleAlpha g.opacity, DrawOp.pasteLayerTypeError,
         DrawOp.text pos col]
    ∧ (applyTextEffects pos col (some { glow := some g })).getLast?
        = some (DrawOp.text pos col)
    ∧ (applyTextEffects pos col (some { glow := some g })).filter DrawOp.onCanvas
        = [DrawOp.text pos col]
    ∧ (∀ i k d o, DrawOp.ringPoint i k d o
        ∉ applyTextEffects pos col (some { glow := some g })) := by
  refine ⟨rfl, rfl, rfl, ?_⟩
  intro i k d o
  simp [applyTextEffects, glowOps]

/-- Helper: membership in `offsetRange w` is the interval `[-w, w]`. -/
theorem mem_offsetRange (w : ℕ) (a : ℤ) :
    a ∈ offsetRange w ↔ -(w : ℤ) ≤ a ∧ a ≤ w := by
  unfold offsetRange
  rw [List.mem_map]
  constructor
  · rintro ⟨i, hi, rfl⟩
    rw [List.mem_range] at hi
    omega
  · rintro ⟨h1, h2⟩
    refine ⟨(a + w).toNat, ?_, ?_⟩
    · rw [List.mem_range]
      omega
    · omega

/-- Helper: `offsetRange w` has no duplicates. -/
theorem offsetRange_nodup (w : ℕ) : (offsetRange w).Nodup := by
  unfold offsetRange
  refine List.Nodup.map ?_ (List.nodup_range _)
  intro a b hab
  dsimp only at hab
  omega

/-- Helper: elements contributed by the inner outline loop at `dx` have first
component `dx`. -/
theorem outline_inner_fst (w : ℕ) (dx : ℤ) (x : ℤ × ℤ)
    (hx : x ∈ (offsetRange w).flatMap fun dy =>
      if dx = 0 ∧ dy = 0 then [] else [(dx, dy)]) : x.1 = dx := by
  obtain ⟨dy, _, hx⟩ := List.mem_flatMap.mp hx
  split at hx
  · cases hx
  · rw [List.mem_singleton] at hx
    subst hx
    rfl

/-- Helper: membership in the outline offset list. -/
theorem mem_outlineOffsets (w : ℕ) (p : ℤ × ℤ) :
    p ∈ outlineOffsets w
      ↔ (-(w : ℤ) ≤ p.1 ∧ p.1 ≤ w) ∧ (-(w : ℤ) ≤ p.2 ∧ p.2 ≤ w) ∧ p ≠ (0, 0) := by
  unfold outlineOffsets
  constructor
  · intro hp
    obtain ⟨dx, hdx, hp⟩ := List.mem_flatMap.mp hp
    obtain ⟨dy, hdy, hp⟩ := List.mem_flatMap.mp hp
    rw [mem_offsetRange] at hdx hdy
    by_cases hz : dx = 0 ∧ dy = 0
    · rw [if_pos hz] at hp
      cases hp
    · rw [if_neg hz] at hp
      rw [List.mem_singleton] at hp
      subst hp
      refine ⟨hdx, hdy, ?_⟩
      intro h
      rw [Prod.mk.injEq] at h
      exact hz h
  · rintro ⟨⟨h1, h2⟩, ⟨h3, h4⟩, hne⟩
    refine List.mem_flatMap.mpr ⟨p.1, (mem_offsetRange w p.1).mpr ⟨h1, h2⟩, ?_⟩
    refine List.mem_flatMap.mpr ⟨p.2, (mem_offsetRange w p.2).mpr ⟨h3, h4⟩, ?_⟩
    rw [if_neg ?_]
    · simp
    · intro h
      exact hne (Prod.ext h.1 h.2)

/-- Helper: the outline offset list has no duplicates. -/
theorem outlineOffsets_nodup (w : ℕ) : (outlineOffsets w).Nodup := by
  unfold outlineOffsets
  rw [List.nodup_flatMap]
  constructor
  · intro dx _
    rw [List.nodup_flatMap]
    constructor
    · intro dy _
      split
      · exact List.nodup_nil
      · simp
    · refine (offsetRange_nodup w).imp ?_
      intro a b hab x hxa hxb
      apply hab
      dsimp only at hxa hxb
      rcases Decidable.em (dx = 0 ∧ a = 0) with ha | ha
      · rw [if_pos ha] at hxa
        cases hxa
      · rw [if_neg ha] at hxa
        rcases Decidable.em (dx = 0 ∧ b = 0) with hb | hb
        · rw [if_pos hb] at hxb
          cases hxb
        · rw [if_neg hb] at hxb
          rw [List.mem_singleton] at hxa hxb
          rw [hxa] at hxb
          exact (Prod.mk.injEq .. |>.mp hxb).2
  · refine (offsetRange_nodup w).imp ?_
    intro a b hab x hxa hxb
    exact hab ((outline_inner_fst w a x hxa).symm.trans (outline_inner_fst w b x hxb))

/-- Helper: the outline offsets, as a finset, are the punctured square. -/
theorem outlineOffsets_toFinset (w : ℕ) :
    (outlineOffsets w).toFinset
      = ((Finset.Icc (-(w : ℤ)) w) ×ˢ (Finset.Icc (-(w : ℤ)) w)).erase (0, 0) := by
  ext p
  rw [List.mem_toFinset, mem_outlineOffsets, Finset.mem_erase, Finset.mem_product,
    Finset.mem_Icc, Finset.mem_Icc]
  tauto

/-- Helper: the outline offset list has exactly `(2w+1)^2 - 1` entries. -/
theorem outlineOffsets_length (w : ℕ) :
    (outlineOffsets w).length = (2 * w + 1) ^ 2 - 1 := by
  have hmem : ((0, 0) : ℤ × ℤ)
      ∈ (Finset.Icc (-(w : ℤ)) w) ×ˢ (Finset.Icc (-(w : ℤ)) w) :=
    Finset.mem_product.mpr
      ⟨Finset.mem_Icc.mpr ⟨by omega, by omega⟩, Finset.mem_Icc.mpr ⟨by omega, by omega⟩⟩
  have hcard := congrArg Finset.card (outlineOffsets_toFinset w)
  rw [List.toFinset_card_of_nodup (outlineOffsets_nodup w)] at hcard
  rw [hcard, Finset.card_erase_of_mem hmem, Finset.card_product, Int.card_Icc]
  have h2 : ((w : ℤ) + 1 - -(w : ℤ)).toNat = 2 * w + 1 := by omega
  rw [h2, pow_two]

/-- Claim C8: for an outline effect of width `w ≥ 1`, the outline text draws
happen exactly at the `(2w+1)^2 - 1` non-zero integer offsets in `[-w,w]²`
(24 for `w = 2`, each visited once), and the main text is drawn last, on top
of all outline passes. -/
theorem C8_outline_offsets (w : ℕ) (hw : 1 ≤ w) (oc mc : String) (pos : ℤ × ℤ) :
    applyTextEffects pos mc (some { outline := some ⟨w, oc⟩ })
      = ((outlineOffsets w).map fun d => DrawOp.text (pos.1 + d.1, pos.2 + d.2) oc)
        ++ [DrawOp.text pos mc]
    ∧ (outlineOffsets w).toFinset
        = ((Finset.Icc (-(w : ℤ)) w) ×ˢ (Finset.Icc (-(w : ℤ)) w)).erase (0, 0)
    ∧ (outlineOffsets w).Nodup
    ∧ (outlineOffsets w).length = (2 * w + 1) ^ 2 - 1
    ∧ (applyTextEffects pos mc (some { outline := some ⟨w, oc⟩ })).getLast?
        = some (DrawOp.text pos mc) := by
  refine ⟨rfl, outlineOffsets_toFinset w, outlineOffsets_nodup w,
    outlineOffsets_length w, ?_⟩
  have h : applyTextEffects pos mc (some { outline := some ⟨w, oc⟩ })
      = ((outlineOffsets w).map fun d => DrawOp.text (pos.1 + d.1, pos.2 + d.2) oc)
        ++ [DrawOp.text pos mc] := rfl
  rw [h, List.getLast?_concat]

/-- Witness for `C8_outline_offsets` at `width = 2` (the claim's 24-offset
instance). -/
theorem C8_outline_offsets_witness :
    applyTextEffects (0, 0) "#FFFFFF" (some { outline := some ⟨2, "#000000"⟩ })
      = ((outlineOffsets 2).map fun d => DrawOp.text (d.1, d.2) "#000000")
        ++ [DrawOp.text (0, 0) "#FFFFFF"]
    ∧ (outlineOffsets 2).length = 24 := by
  have h := C8_outline_offsets 2 (by decide) "#000000" "#FFFFFF" (0, 0)
  refine ⟨?_, ?_⟩
  · rw [h.1]
    simp
  · rw [h.2.2.2.1]
    norm_num

/-- Claim C6: `compose_final_image` resizes the foreground to exactly the
background's `(w, h)` before blending whenever the sizes differ, and the
output canvas size always equals the background's size. -/
theorem C6_compose_resampling (bg fg : SizedImg) (m : String) (o : ℚ) :
    (composedForeground bg fg).width = bg.width
    ∧ (composedForeground bg fg).height = bg.height
    ∧ composeFinalImage bg fg m o = alphaPasteAtOrigin bg (composedForeground bg fg)
    ∧ (composeFinalImage bg fg m o).width = bg.width
    ∧ (composeFinalImage bg fg m o).height = bg.height := by
  refine ⟨?_, ?_, rfl, rfl, rfl⟩
  · unfold composedForeground
    split
    · rfl
    · rename_i h
      rw [not_not] at h
      exact (Prod.mk.injEq .. |>.mp h).1
  · unfold composedForeground
    split
    · rfl
    · rename_i h
      rw [not_not] at h
      exact (Prod.mk.injEq .. |>.mp h).2

/-- Claim C10: the output of `compose_final_image` is pixel-identical for any
two choices of `blend_mode` and `blend_opacity` — the parameters are accepted
but never used: the composite is always a straight alpha paste of the
foreground over the background. -/
theorem C10_blend_params_unused (bg fg : SizedImg)
    (m1 m2 : String) (o1 o2 : ℚ) :
    composeFinalImage bg fg m1 o1 = composeFinalImage bg fg m2 o2 := by
  rfl

/-- Claim C9 counterexample: on a fully opaque background with an alpha
channel, `_suggest_text_positions` produces no candidates at all (every cell
has mean alpha 255 ≥ 128 and is skipped), so it does not score all nine grid
cells and does not return a top 3. -/
theorem cellAnchor_bounds (dim t idx : ℕ) :
    10 ≤ cellAnchor dim t idx
    ∧ cellAnchor dim t idx ≤ max 10 ((dim : ℤ) - t - 10) := by
  unfold cellAnchor clampPos
  omega

/-- Helper: on the fully opaque background every grid cell is skipped (its
mean alpha is 255, not below 128). -/
theorem fully_covered_cell_skipped (xIdx yIdx : ℕ) :
    candidateCell opaqueImg true 2 2 xIdx yIdx = [] := by
  have hbx := cellAnchor_bounds opaqueImg.width 2 xIdx
  have hby := cellAnchor_bounds opaqueImg.height 2 yIdx
  have hW : opaqueImg.width = 60 := rfl
  have hH : opaqueImg.height = 60 := rfl
  rw [hW] at hbx
  rw [hH] at hby
  have hsum : regionAlphaSum opaqueImg ((cellAnchor 60 2 xIdx).toNat)
      ((cellAnchor 60 2 yIdx).toNat) 2 2 = 1020 := by
    norm_num [regionAlphaSum, sumRange, opaqueImg, List.range_succ, List.range_zero]
  unfold candidateCell
  dsimp only
  rw [hW, hH]
  have hcx : min ((cellAnchor 60 2 xIdx).toNat + 2) 60
      - (cellAnchor 60 2 xIdx).toNat = 2 := by
    omega
  have hcy : min ((cellAnchor 60 2 yIdx).toNat + 2) 60
      - (cellAnchor 60 2 yIdx).toNat = 2 := by
    omega
  rw [hcx, hcy, hsum]
  norm_num

theorem C9_counterexample :
    suggestTextPositions opaqueImg true 2 2 = []
    ∧ (suggestTextPositions opaqueImg true 2 2).length ≠ 3 := by
  have hcells : candidateCells opaqueImg true 2 2 = [] := by
    unfold candidateCells
    simp [fully_covered_cell_skipped]
  have hres : suggestTextPositions opaqueImg true 2 2 = [] := by
    unfold suggestTextPositions
    rw [hcells, List.mergeSort_nil]
    rfl
  refine ⟨hres, ?_⟩
  rw [hres]
  decide

/-- Helper: with an alpha channel, any candidate a grid cell emits has score
above 127 (it is emitted only when the region's mean alpha is below 128, and
scored `255 - meanAlpha`). -/
theorem candidateCell_alpha_score (img : SizedImg) (tw th xIdx yIdx : ℕ)
    (c : Candidate) (hc : c ∈ candidateCell img true tw th xIdx yIdx) :
    127 < c.score := by
  unfold candidateCell at hc
  dsimp only at hc
  split at hc
  · split at hc
    · split at hc
      · rename_i havg
        rw [List.mem_singleton] at hc
        subst hc
        dsimp only
        linarith
      · cases hc
    · split at hc
      · rename_i havg
        rw [List.mem_singleton] at hc
        subst hc
        dsimp only
        linarith
      · cases hc
  · rename_i hna
    exact absurd rfl hna

/-- Helper: with an alpha channel, every collected candidate has score above
127. -/
theorem candidateCells_alpha_score (img : SizedImg) (tw th : ℕ)
    (c : Candidate) (hc : c ∈ candidateCells img true tw th) :
    127 < c.score := by
  unfold candidateCells at hc
  obtain ⟨yIdx, _, hc⟩ := List.mem_flatMap.mp hc
  obtain ⟨xIdx, _, hc⟩ := List.mem_flatMap.mp hc
  exact candidateCell_alpha_score img tw th xIdx yIdx c hc

/-- Claim C9 (amended): with an alpha channel, `_suggest_text_positions`
keeps only the grid cells whose candidate region has mean alpha below 128
(score `255 - meanAlpha > 127`), sorts those candidates descending by score
and returns at most the top 3 — `min 3 (number of transparent-enough cells)`
of them, not always 3 of 9. -/
theorem C9_position_suggestions (img : SizedImg) (tw th : ℕ)
    (ha : Bool) (h : ha = true) :
    (suggestTextPositions img ha tw th).length
      = min 3 (candidateCells img ha tw th).length
    ∧ (∀ c ∈ suggestTextPositions img ha tw th, 127 < c.score)
    ∧ (suggestTextPositions img ha tw th).Pairwise
        (fun a b => b.score ≤ a.score) := by
  subst h
  refine ⟨?_, ?_, ?_⟩
  · unfold suggestTextPositions
    rw [List.length_take, List.length_mergeSort]
  · intro c hc
    unfold suggestTextPositions at hc
    have hc2 : c ∈ (candidateCells img true tw th).mergeSort candLE :=
      List.mem_of_mem_take hc
    rw [List.mem_mergeSort] at hc2
    exact candidateCells_alpha_score img tw th c hc2
  · unfold suggestTextPositions
    have hs := @List.sorted_mergeSort Candidate candLE
      (fun a b c hab hbc => by
        unfold candLE at *
        simp only [decide_eq_true_eq] at *
        exact le_trans hbc hab)
      (fun a b => by
        unfold candLE
        rcases le_total a.score b.score with hle | hle <;> simp [hle])
      (candidateCells img true tw th)
    have hs2 := hs.sublist (List.take_sublist 3 _)
    exact hs2.imp fun hab => decide_eq_true_eq.mp hab

/-- Witness for `C9_position_suggestions` at the concrete half-transparent
background `mixedImg`. -/
theorem C9_position_suggestions_witness :
    (suggestTextPositions mixedImg true 2 2).length
      = min 3 (candidateCells mixedImg true 2 2).length := by
  exact (C9_position_suggestions mixedImg 2 2 true rfl).1

/-- Helper: Python truncation equals the floor on nonnegative values. -/
theorem pyInt_of_nonneg {q : ℚ} (h : 0 ≤ q) : pyInt q = ⌊q⌋ := by
  unfold pyInt
  exact if_pos h

/-- Helper: every template (and the default) is at least 1080 wide and 627
tall. -/
theorem socialMediaDimensions_bounds (name : String) :
    1080 ≤ (socialMediaDimensions name).1 ∧ 627 ≤ (socialMediaDimensions name).2 := by
  unfold socialMediaDimensions
  split_ifs <;> exact ⟨by norm_num, by norm_num⟩

/-- Helper: unknown template names fall back to the 1080×1080 default. -/
theorem socialMediaDimensions_default (name : String) (h : name ∉ templateNames) :
    socialMediaDimensions name = (1080, 1080) := by
  unfold templateNames at h
  simp only [List.mem_cons, List.not_mem_nil, or_false] at h
  push_neg at h
  obtain ⟨h1, h2, h3, h4, h5, h6, h7⟩ := h
  unfold socialMediaDimensions
  rw [if_neg h1, if_neg h2, if_neg h3, if_neg h4, if_neg h5, if_neg h6, if_neg h7]

/-- Helper: full geometry contract of the template scaling arithmetic for
template dimensions at least 627×627 and padding percent at most 30: the
canvas keeps the template dimensions; the resized foreground fits inside
the padded available box, exactly filling it on the constraining axis; the
paste position centers it, keeping it entirely on the canvas. -/
theorem templateLayoutCore_spec (fgW fgH w h p : ℕ)
    (hfw : 1 ≤ fgW) (hfh : 1 ≤ fgH) (hp : p ≤ 30) (hw : 627 ≤ w) (hh : 627 ≤ h) :
    (templateLayoutCore fgW fgH w h p).canvasW = w
    ∧ (templateLayoutCore fgW fgH w h p).canvasH = h
    ∧ 0 ≤ (templateLayoutCore fgW fgH w h p).newW
    ∧ (templateLayoutCore fgW fgH w h p).newW
        ≤ (w : ℤ) - 2 * ((min w h * p / 100 : ℕ) : ℤ)
    ∧ 0 ≤ (templateLayoutCore fgW fgH w h p).newH
    ∧ (templateLayoutCore fgW fgH w h p).newH
        ≤ (h : ℤ) - 2 * ((min w h * p / 100 : ℕ) : ℤ)
    ∧ ((templateLayoutCore fgW fgH w h p).newW
          = (w : ℤ) - 2 * ((min w h * p / 100 : ℕ) : ℤ)
        ∨ (templateLayoutCore fgW fgH w h p).newH
          = (h : ℤ) - 2 * ((min w h * p / 100 : ℕ) : ℤ))
    ∧ (templateLayoutCore fgW fgH w h p).posX
        = ((w : ℤ) - (templateLayoutCore fgW fgH w h p).newW) / 2
    ∧ (templateLayoutCore fgW fgH w h p).posY
        = ((h : ℤ) - (templateLayoutCore fgW fgH w h p).newH) / 2
    ∧ 0 ≤ (templateLayoutCore fgW fgH w h p).posX
    ∧ (templateLayoutCore fgW fgH w h p).posX
        + (templateLayoutCore fgW fgH w h p).newW ≤ (w : ℤ)
    ∧ 0 ≤ (templateLayoutCore fgW fgH w h p).posY
    ∧ (templateLayoutCore fgW fgH w h p).posY
        + (templateLayoutCore fgW fgH w h p).newH ≤ (h : ℤ) := by
  have hm : 627 ≤ min w h := le_min hw hh
  have hpadb : 2 * (min w h * p / 100) + 1 ≤ min w h := by
    have h2 : min w h * p / 100 ≤ min w h * 30 / 100 :=
      Nat.div_le_div_right (Nat.mul_le_mul (le_refl (min w h)) hp)
    have h3 : (min w h * 30 / 100) * 100 ≤ min w h * 30 := Nat.div_mul_le_self _ _
    omega
  have hminw : min w h ≤ w := min_le_left _ _
  have hminh : min w h ≤ h := min_le_right _ _
  have haspect : (0 : ℚ) < (fgW : ℚ) / (fgH : ℚ) :=
    div_pos (by exact_mod_cast hfw) (by exact_mod_cast hfh)
  dsimp only [templateLayoutCore]
  set pad : ℕ := min w h * p / 100 with hpaddef
  have havW : (1 : ℤ) ≤ (w : ℤ) - 2 * (pad : ℤ) := by omega
  have havH : (1 : ℤ) ≤ (h : ℤ) - 2 * (pad : ℤ) := by omega
  have hWpos : (0 : ℚ) < (((w : ℤ) - 2 * (pad : ℤ) : ℤ) : ℚ) := by
    exact_mod_cast lt_of_lt_of_le Int.zero_lt_one havW
  have hHpos : (0 : ℚ) < (((h : ℤ) - 2 * (pad : ℤ) : ℤ) : ℚ) := by
    exact_mod_cast lt_of_lt_of_le Int.zero_lt_one havH
  split
  · rename_i hgt
    dsimp only
    have hmul : (((h : ℤ) - 2 * (pad : ℤ) : ℤ) : ℚ) * ((fgW : ℚ) / (fgH : ℚ))
        < (((w : ℤ) - 2 * (pad : ℤ) : ℤ) : ℚ) := by
      have hx := (lt_div_iff hHpos).mp hgt
      calc (((h : ℤ) - 2 * (pad : ℤ) : ℤ) : ℚ) * ((fgW : ℚ) / (fgH : ℚ))
          = ((fgW : ℚ) / (fgH : ℚ)) * (((h : ℤ) - 2 * (pad : ℤ) : ℤ) : ℚ) := mul_comm _ _
        _ < (((w : ℤ) - 2 * (pad : ℤ) : ℤ) : ℚ) := hx
    have hval : 0 ≤ (((h : ℤ) - 2 * (pad : ℤ) : ℤ) : ℚ) * ((fgW : ℚ) / (fgH : ℚ)) :=
      mul_nonneg (le_of_lt hHpos) (le_of_lt haspect)
    have hnW0 : 0 ≤ pyInt ((((h : ℤ) - 2 * (pad : ℤ) : ℤ) : ℚ) * ((fgW : ℚ) / (fgH : ℚ))) := by
      rw [pyInt_of_nonneg hval]
      exact Int.le_floor.mpr (by exact_mod_cast hval)
    have hnWle : pyInt ((((h : ℤ) - 2 * (pad : ℤ) : ℤ) : ℚ) * ((fgW : ℚ) / (fgH : ℚ)))
        ≤ (w : ℤ) - 2 * (pad : ℤ) := by
      rw [pyInt_of_nonneg hval]
      have hfl : ⌊(((h : ℤ) - 2 * (pad : ℤ) : ℤ) : ℚ) * ((fgW : ℚ) / (fgH : ℚ))⌋
          < (w : ℤ) - 2 * (pad : ℤ) := Int.floor_lt.mpr (by exact_mod_cast hmul)
      omega
    refine ⟨rfl, rfl, hnW0, hnWle, by omega, le_refl _, Or.inr rfl, rfl, rfl,
      by omega, by omega, by omega, by omega⟩
  · rename_i hngt
    dsimp only
    rw [not_lt] at hngt
    have hub : (((w : ℤ) - 2 * (pad : ℤ) : ℤ) : ℚ) ≤ ((fgW : ℚ) / (fgH : ℚ))
        * (((h : ℤ) - 2 * (pad : ℤ) : ℤ) : ℚ) := (div_le_iff hHpos).mp hngt
    have hval : 0 ≤ (((w : ℤ) - 2 * (pad : ℤ) : ℤ) : ℚ) / ((fgW : ℚ) / (fgH : ℚ)) :=
      div_nonneg (le_of_lt hWpos) (le_of_lt haspect)
    have hdiv : (((w : ℤ) - 2 * (pad : ℤ) : ℤ) : ℚ) / ((fgW : ℚ) / (fgH : ℚ))
        ≤ (((h : ℤ) - 2 * (pad : ℤ) : ℤ) : ℚ) := by
      rw [div_le_iff haspect]
      calc (((w : ℤ) - 2 * (pad : ℤ) : ℤ) : ℚ)
          ≤ ((fgW : ℚ) / (fgH : ℚ)) * (((h : ℤ) - 2 * (pad : ℤ) : ℤ) : ℚ) := hub
        _ = (((h : ℤ) - 2 * (pad : ℤ) : ℤ) : ℚ) * ((fgW : ℚ) / (fgH : ℚ)) := mul_comm _ _
    have hnH0 : 0 ≤ pyInt ((((w : ℤ) - 2 * (pad : ℤ) : ℤ) : ℚ) / ((fgW : ℚ) / (fgH : ℚ))) := by
      rw [pyInt_of_nonneg hval]
      exact Int.le_floor.mpr (by exact_mod_cast hval)
    have hnHle : pyInt ((((w : ℤ) - 2 * (pad : ℤ) : ℤ) : ℚ) / ((fgW : ℚ) / (fgH : ℚ)))
        ≤ (h : ℤ) - 2 * (pad : ℤ) := by
      rw [pyInt_of_nonneg hval]
      have hfl := Int.floor_le_floor hdiv
      rwa [Int.floor_intCast] at hfl
    refine ⟨rfl, rfl, by omega, le_refl _, hnH0, hnHle, Or.inl rfl, rfl, rfl,
      by omega, by omega, by omega, by omega⟩

/-- Claim C7: `create_template` produces a canvas of exactly the looked-up
template dimensions (1280×720 for `"youtube_thumbnail"`, 1080×1080 for
unknown names); the scaled foreground's both dimensions are at most the
padded available box `(W - 2*paddingPx, H - 2*paddingPx)`, the constrained
dimension exactly equals the box's corresponding dimension, and the
foreground is centered on the canvas without being cropped. -/
theorem C7_template_letterboxing (fgW fgH p : ℕ) (name : String) (W H : ℕ)
    (hfw : 1 ≤ fgW) (hfh : 1 ≤ fgH) (hp : p ≤ 30)
    (hdim : socialMediaDimensions name = (W, H)) :
    (name = "youtube_thumbnail" → (W, H) = (1280, 720))
    ∧ (name ∉ templateNames → (W, H) = (1080, 1080))
    ∧ (createTemplateLayout fgW fgH name p).canvasW = W
    ∧ (createTemplateLayout fgW fgH name p).canvasH = H
    ∧ 0 ≤ (createTemplateLayout fgW fgH name p).newW
    ∧ (createTemplateLayout fgW fgH name p).newW
        ≤ (W : ℤ) - 2 * ((min W H * p / 100 : ℕ) : ℤ)
    ∧ 0 ≤ (createTemplateLayout fgW fgH name p).newH
    ∧ (createTemplateLayout fgW fgH name p).newH
        ≤ (H : ℤ) - 2 * ((min W H * p / 100 : ℕ) : ℤ)
    ∧ ((createTemplateLayout fgW fgH name p).newW
          = (W : ℤ) - 2 * ((min W H * p / 100 : ℕ) : ℤ)
        ∨ (createTemplateLayout fgW fgH name p).newH
          = (H : ℤ) - 2 * ((min W H * p / 100 : ℕ) : ℤ))
    ∧ (createTemplateLayout fgW fgH name p).posX
        = ((W : ℤ) - (createTemplateLayout fgW fgH name p).newW) / 2
    ∧ (createTemplateLayout fgW fgH name p).posY
        = ((H : ℤ) - (createTemplateLayout fgW fgH name p).newH) / 2
    ∧ 0 ≤ (createTemplateLayout fgW fgH name p).posX
    ∧ (createTemplateLayout fgW fgH name p).posX
        + (createTemplateLayout fgW fgH name p).newW ≤ (W : ℤ)
    ∧ 0 ≤ (createTemplateLayout fgW fgH name p).posY
    ∧ (createTemplateLayout fgW fgH name p).posY
        + (createTemplateLayout fgW fgH name p).newH ≤ (H : ℤ) := by
  have hb := socialMediaDimensions_bounds name
  rw [hdim] at hb
  have hW627 : 627 ≤ W := le_trans (by norm_num) hb.1
  have hH627 : 627 ≤ H := hb.2
  have hct : createTemplateLayout fgW fgH name p = templateLayoutCore fgW fgH W H p := by
    unfold createTemplateLayout
    rw [hdim]
  have hcore := templateLayoutCore_spec fgW fgH W H p hfw hfh hp hW627 hH627
  rw [hct]
  refine ⟨?_, ?_, hcore.1, hcore.2.1, hcore.2.2.1, hcore.2.2.2.1, hcore.2.2.2.2.1,
    hcore.2.2.2.2.2.1, hcore.2.2.2.2.2.2.1, hcore.2.2.2.2.2.2.2.1,
    hcore.2.2.2.2.2.2.2.2.1, hcore.2.2.2.2.2.2.2.2.2.1,
    hcore.2.2.2.2.2.2.2.2.2.2.1, hcore.2.2.2.2.2.2.2.2.2.2.2.1,
    hcore.2.2.2.2.2.2.2.2.2.2.2.2⟩
  · intro hname
    subst hname
    have hv : socialMediaDimensions "youtube_thumbnail" = (1280, 720) := rfl
    exact hdim.symm.trans hv
  · intro hname
    exact hdim.symm.trans (socialMediaDimensions_default name hname)

/-- Witness for `C7_template_letterboxing` at a 800×600 foreground on the
`"youtube_thumbnail"` template with 10% padding. -/
theorem C7_template_letterboxing_witness :
    (createTemplateLayout 800 600 "youtube_thumbnail" 10).canvasW = 1280
    ∧ (createTemplateLayout 800 600 "youtube_thumbnail" 10).canvasH = 720
    ∧ 0 ≤ (createTemplateLayout 800 600 "youtube_thumbnail" 10).posX := by
  have h := C7_template_letterboxing 800 600 10 "youtube_thumbnail" 1280 720
    (by norm_num) (by norm_num) (by norm_num) rfl
  exact ⟨h.2.2.1, h.2.2.2.1, h.2.2.2.2.2.2.2.2.2.2.2.1⟩
